import Mathlib

/-
Shallow embedding of the fresh-atom library (src/mod.ts).

The library wraps a Preact signal in an object with three members:
  get    : () => sig.value
  set    : (value) => if typeof value is a function then
                        sig.value = value(sig.value)
                      else sig.value = value
  signal : sig
plus a hook useAtom(atom) = [atom.signal.value, atom.set].

Modelling choices:
  - A runtime value of the generic type T is modelled by `JSVal B F`:
    either a non-function value (constructor `base`) or a function object
    (constructor `func`), so that the runtime dispatch
    `typeof value === 'function'` in `set` is expressible.
  - Function objects are abstract: a type `F` of function objects with a
    call semantics `app : F → JSVal B F → Except E (JSVal B F)`; an
    `Except.error` outcome models the callee raising an exception.
  - The signal heap of the host reactivity library is a store of slots
    indexed by Nat; `Store.signal` models the `signal(initialValue)`
    constructor (allocate a fresh slot), and reading / writing
    `sig.value` is reading / writing the slot.
  - Stateful operations pass the store explicitly; `set` returns the
    outcome (`Except E Unit`, error when the updater raised) together
    with the resulting store. In the error case the assignment to
    `sig.value` never executes, so the store is returned unchanged.
-/

namespace FreshAtom

/-- A runtime value: either a non-function value of `B` or a function
object of `F`. The two constructors correspond to the two outcomes of
the runtime check `typeof value === 'function'`. -/
inductive JSVal (B F : Type) where
  | base : B → JSVal B F
  | func : F → JSVal B F
deriving DecidableEq

/-- The runtime type test `typeof value === 'function'` used by `set`. -/
def isFunction {B F : Type} : JSVal B F → Bool
  | .base _ => false
  | .func _ => true

/-- The heap of signal slots of the host reactivity library: the index of
the next fresh slot, and the contents of every slot. -/
structure Store (B F : Type) where
  next : Nat
  vals : Nat → JSVal B F

/-- Models the signal constructor `signal(initialValue)` of the host
reactivity library: allocates a fresh slot holding the value and returns
its index together with the extended heap. -/
def Store.signal {B F : Type} (st : Store B F) (v : JSVal B F) :
    Nat × Store B F :=
  (st.next, ⟨st.next + 1, fun i => if i = st.next then v else st.vals i⟩)

/-- Models the assignment `sig.value = v` for the signal in slot `id`. -/
def Store.write {B F : Type} (st : Store B F) (id : Nat) (v : JSVal B F) :
    Store B F :=
  ⟨st.next, fun i => if i = id then v else st.vals i⟩

/-- The `Atom<T>` interface of src/mod.ts: an object with members `get`,
`set` and the exposed underlying `signal` (here, its slot index). `get`
returns the read value together with the post-state; `set` returns the
outcome (an error when a caller-supplied updater raised) together with
the post-state. -/
structure Atom (B F E : Type) where
  get : Store B F → JSVal B F × Store B F
  set : JSVal B F → Store B F → Except E Unit × Store B F
  signal : Nat

/-- The factory `atom(initialValue)` of src/mod.ts: allocates a fresh
signal holding `initialValue` and returns the object whose `get` reads
`sig.value`, whose `set` dispatches on `typeof value === 'function'` and
either invokes the updater on `sig.value` and assigns its result, or
assigns the argument directly, and whose `signal` member exposes the
underlying signal. `app` is the call semantics for function objects. -/
def atom {B F E : Type} (app : F → JSVal B F → Except E (JSVal B F))
    (st : Store B F) (initialValue : JSVal B F) : Atom B F E × Store B F :=
  let alloc := Store.signal st initialValue
  ({ get := fun s => (s.vals alloc.1, s)
   , set := fun value s =>
       match value with
       | .func f =>
         match app f (s.vals alloc.1) with
         | .ok v => (Except.ok (), s.write alloc.1 v)
         | .error e => (Except.error e, s)
       | .base b => (Except.ok (), s.write alloc.1 (.base b))
   , signal := alloc.1 }, alloc.2)

/-- The hook `useAtom(atom)` of src/mod.ts: returns the pair
`[atom.signal.value, atom.set]`. -/
def useAtom {B F E : Type} (a : Atom B F E) (st : Store B F) :
    JSVal B F × (JSVal B F → Store B F → Except E Unit × Store B F) :=
  (st.vals a.signal, a.set)

/-! Concrete instantiation used for witnesses and scenarios: base values
are integers, function objects are integer functions applied to the
numeric payload of the current value (calling one on a value that is
itself a function object raises, which only exercises the error path of
the model). -/

/-- Call semantics for integer updaters such as `(x) => x + 1`. -/
def intApp : (Int → Int) → JSVal Int (Int → Int) →
    Except Unit (JSVal Int (Int → Int))
  | f, .base n => Except.ok (JSVal.base (f n))
  | _, .func _ => Except.error ()

/-- An initial empty heap for the integer instantiation. -/
def st0 : Store Int (Int → Int) := ⟨0, fun _ => JSVal.base 0⟩

/-- Call semantics for a degenerate function-object type with a single
function object that always returns 0, modelling the updater `() => 0`. -/
def unitApp : Unit → JSVal Int Unit → Except Unit (JSVal Int Unit) :=
  fun _ _ => Except.ok (JSVal.base 0)

/-- An initial empty heap for the degenerate instantiation. -/
def stU : Store Int Unit := ⟨0, fun _ => JSVal.base 0⟩

/-! Concrete states for the scenario of the test file: the counter atom
with initial value 0 updated twice by `(x) => x + 1`, and the demo atom
with initial value 10 set to 20 and then updated by `(prev) => prev + 5`. -/

/-- The counter atom created by `atom(0)`. -/
def counterA : Atom Int (Int → Int) Unit := (atom intApp st0 (JSVal.base 0)).1

/-- The heap right after creating the counter atom. -/
def counterS0 : Store Int (Int → Int) := (atom intApp st0 (JSVal.base 0)).2

/-- The heap after the first `set((x) => x + 1)` on the counter atom. -/
def counterS1 : Store Int (Int → Int) :=
  (counterA.set (.func (fun x => x + 1)) counterS0).2

/-- The heap after the second `set((x) => x + 1)` on the counter atom. -/
def counterS2 : Store Int (Int → Int) :=
  (counterA.set (.func (fun x => x + 1)) counterS1).2

/-- The demo atom created by `atom(10)`. -/
def demoA : Atom Int (Int → Int) Unit := (atom intApp st0 (JSVal.base 10)).1

/-- The heap right after creating the demo atom. -/
def demoS0 : Store Int (Int → Int) := (atom intApp st0 (JSVal.base 10)).2

/-- The heap after `set(20)` on the demo atom. -/
def demoS1 : Store Int (Int → Int) := (demoA.set (.base 20) demoS0).2

/-- The heap after `set((prev) => prev + 5)` on the demo atom. -/
def demoS2 : Store Int (Int → Int) :=
  (demoA.set (.func (fun prev => prev + 5)) demoS1).2

/-! Helper lemmas shared by several claim proofs. -/

/-- The slot of an atom is the slot that was fresh at creation. -/
theorem atom_signal_eq {B F E : Type}
    (app : F → JSVal B F → Except E (JSVal B F)) (st : Store B F)
    (v : JSVal B F) : ((atom app st v).1).signal = st.next := rfl

/-- Immediately after creation, the slot of the new atom holds the
initial value. -/
theorem atom_store_at_signal {B F E : Type}
    (app : F → JSVal B F → Except E (JSVal B F)) (st : Store B F)
    (v : JSVal B F) :
    ((atom app st v).2).vals ((atom app st v).1).signal = v := by
  simp [atom, Store.signal]

/-- Writing one slot leaves every other slot unchanged. -/
theorem write_frame {B F : Type} (st : Store B F) (id : Nat)
    (v : JSVal B F) (i : Nat) (h : i ≠ id) :
    (st.write id v).vals i = st.vals i := by
  simp [Store.write, h]

/-- A `set` on an atom changes no slot other than the slot of its own
signal, whichever branch runs. -/
theorem set_frame {B F E : Type}
    (app : F → JSVal B F → Except E (JSVal B F)) (st : Store B F)
    (v : JSVal B F) (value : JSVal B F) (s : Store B F) (i : Nat)
    (h : i ≠ st.next) :
    ((((atom app st v).1).set value s).2).vals i = s.vals i := by
  cases value with
  | base b => simpa [atom, Store.signal] using write_frame s st.next _ i h
  | func f =>
      cases happ : app f (s.vals st.next) with
      | ok w => simpa [atom, Store.signal, happ] using write_frame s st.next _ i h
      | error e => simp [atom, Store.signal, happ]

/-- C1: for every initial value v, constructing a cell with atom(v) and
immediately calling get() returns v, with no validation or transformation
of the value. -/
theorem atom_get_initial {B F E : Type}
    (app : F → JSVal B F → Except E (JSVal B F)) (st : Store B F)
    (v : JSVal B F) :
    (((atom app st v).1).get ((atom app st v).2)).1 = v := by
  simp [atom, Store.signal]

/-- C2 (amended): after atom(v) followed by cell.set(w) for a
non-function value w, cell.get() returns w. -/
theorem set_direct_nonfunction {B F E : Type}
    (app : F → JSVal B F → Except E (JSVal B F)) (st : Store B F)
    (v : JSVal B F) (b : B) :
    (((atom app st v).1).get
      ((((atom app st v).1).set (.base b) (atom app st v).2).2)).1 =
      JSVal.base b := by
  simp [atom, Store.signal, Store.write]

/-- C2 (counterexample): a value w of function type is not stored by set.
Here the cell holds 5, w is the function object whose call returns 0, and
after set(w) the cell holds 0, not w. -/
theorem set_function_literal_not_stored :
    (((atom unitApp stU (JSVal.base 5)).1).get
      ((((atom unitApp stU (JSVal.base 5)).1).set (.func ())
        (atom unitApp stU (JSVal.base 5)).2).2)).1 ≠ JSVal.func () := by
  decide

/-- C3: for every value v and every updater f whose call on v returns w,
after atom(v) followed by cell.set(f), cell.get() returns w: set invokes
the updater synchronously with the current value and installs its return
value. -/
theorem set_updater_applies {B F E : Type}
    (app : F → JSVal B F → Except E (JSVal B F)) (st : Store B F)
    (v w : JSVal B F) (f : F) (h : app f v = Except.ok w) :
    (((atom app st v).1).get
      ((((atom app st v).1).set (.func f) (atom app st v).2).2)).1 = w := by
  simp [atom, Store.signal, Store.write, h]

/-- C3 witness: starting from 10, the updater `(x) => x + 1` yields 11. -/
theorem set_updater_applies_witness :
    intApp (fun x => x + 1) (JSVal.base 10) = Except.ok (JSVal.base 11) ∧
    (((atom intApp st0 (JSVal.base 10)).1).get
      ((((atom intApp st0 (JSVal.base 10)).1).set (.func (fun x => x + 1))
        (atom intApp st0 (JSVal.base 10)).2).2)).1 = JSVal.base 11 :=
  ⟨rfl, set_updater_applies intApp st0 _ _ _ rfl⟩

/-- C4: useAtom(cell) returns a pair whose first element equals
cell.get() at the time of the call and whose second element is the set
function of the cell, unmodified, so invoking it behaves identically to
cell.set. -/
theorem useAtom_pair {B F E : Type}
    (app : F → JSVal B F → Except E (JSVal B F)) (st : Store B F)
    (v : JSVal B F) (s : Store B F) :
    (useAtom ((atom app st v).1) s).1 = (((atom app st v).1).get s).1 ∧
    (useAtom ((atom app st v).1) s).2 = ((atom app st v).1).set :=
  ⟨rfl, rfl⟩

/-- C5: for every cell and every updater whose call on the current value
raises e, set with that updater returns the same exception e and leaves
the heap, and hence the stored value, exactly as before the call. -/
theorem set_updater_raises {B F E : Type}
    (app : F → JSVal B F → Except E (JSVal B F)) (st : Store B F)
    (v : JSVal B F) (s : Store B F) (f : F) (e : E)
    (h : app f (s.vals st.next) = Except.error e) :
    ((atom app st v).1).set (.func f) s = (Except.error e, s) := by
  simp [atom, Store.signal, h]

/-- C5 witness: calling an integer updater on a cell holding a function
object raises, the exception propagates and the heap is unchanged. -/
theorem set_updater_raises_witness :
    intApp (fun x => x + 1)
      ((atom intApp st0 (JSVal.func (fun x => x))).2.vals st0.next) =
      Except.error () ∧
    ((atom intApp st0 (JSVal.func (fun x => x))).1).set
      (.func (fun x => x + 1)) ((atom intApp st0 (JSVal.func (fun x => x))).2) =
      (Except.error (), (atom intApp st0 (JSVal.func (fun x => x))).2) :=
  ⟨rfl, set_updater_raises intApp st0 _ _ _ _ rfl⟩

/-- C6: set dispatches on the runtime type of its argument: a
function-typed argument is invoked as an updater on the current value and
the result is stored (the argument itself is never assigned), while a
non-function argument is stored directly. -/
theorem set_dispatch {B F E : Type}
    (app : F → JSVal B F → Except E (JSVal B F)) (st : Store B F)
    (v : JSVal B F) :
    (∀ f : F, isFunction (JSVal.func f : JSVal B F) = true) ∧
    (∀ b : B, isFunction (JSVal.base b : JSVal B F) = false) ∧
    (∀ (f : F) (s : Store B F),
       ((atom app st v).1).set (.func f) s =
         match app f (s.vals st.next) with
         | Except.ok w => (Except.ok (), s.write st.next w)
         | Except.error e => (Except.error e, s)) ∧
    (∀ (b : B) (s : Store B F),
       ((atom app st v).1).set (.base b) s =
         (Except.ok (), s.write st.next (JSVal.base b))) :=
  ⟨fun _ => rfl, fun _ => rfl, fun _ _ => rfl, fun _ _ => rfl⟩

/-- C7: get is an idempotent, side-effect-free read: it returns the heap
unchanged, and reading twice without an intervening set returns the same
value both times. -/
theorem get_pure_idempotent {B F E : Type}
    (app : F → JSVal B F → Except E (JSVal B F)) (st : Store B F)
    (v : JSVal B F) (s : Store B F) :
    (((atom app st v).1).get s).2 = s ∧
    (((atom app st v).1).get ((((atom app st v).1).get s).2)).1 =
      (((atom app st v).1).get s).1 :=
  ⟨rfl, rfl⟩

/-- C8: sequential updates compose: after atom(0) and two
set((x) => x + 1) calls get() returns 2; and after atom(10) get() is 10,
after set(20) get() is 20, and after set((prev) => prev + 5) get() is 25. -/
theorem scenario_sequential_updates :
    (counterA.get counterS2).1 = JSVal.base 2 ∧
    (demoA.get demoS0).1 = JSVal.base 10 ∧
    (demoA.get demoS1).1 = JSVal.base 20 ∧
    (demoA.get demoS2).1 = JSVal.base 25 :=
  ⟨rfl, rfl, rfl, rfl⟩

/-- C9: the exposed underlying signal holds exactly the value get()
returns: get reads the slot of the signal, set writes no other slot, and
a write, direct or through an updater, is immediately visible to every
subsequent read. -/
theorem signal_value_invariant {B F E : Type}
    (app : F → JSVal B F → Except E (JSVal B F)) (st : Store B F)
    (v : JSVal B F) :
    (∀ s : Store B F,
       (((atom app st v).1).get s).1 = s.vals ((atom app st v).1).signal) ∧
    (∀ (value : JSVal B F) (s : Store B F) (i : Nat),
       i ≠ ((atom app st v).1).signal →
       ((((atom app st v).1).set value s).2).vals i = s.vals i) ∧
    (∀ (b : B) (s : Store B F),
       (((atom app st v).1).get
         ((((atom app st v).1).set (.base b) s).2)).1 = JSVal.base b) ∧
    (∀ (f : F) (w : JSVal B F) (s : Store B F),
       app f (s.vals ((atom app st v).1).signal) = Except.ok w →
       (((atom app st v).1).get
         ((((atom app st v).1).set (.func f) s).2)).1 = w) := by
  refine ⟨fun s => rfl, fun value s i h => set_frame app st v value s i h,
    fun b s => ?_, fun f w s h => ?_⟩
  · simp [atom, Store.signal, Store.write]
  · simp only [atom, Store.signal] at h ⊢
    simp [h, Store.write]

/-- C9 witness: with a cell holding 3 in slot 0, a set leaves slot 1
unchanged, and the updater `(x) => x * 2` makes get() return 6. -/
theorem signal_value_invariant_witness :
    ((1 : Nat) ≠ ((atom intApp st0 (JSVal.base 3)).1).signal ∧
      ((((atom intApp st0 (JSVal.base 3)).1).set (JSVal.base 7)
        (atom intApp st0 (JSVal.base 3)).2).2).vals 1 =
        (atom intApp st0 (JSVal.base 3)).2.vals 1) ∧
    (intApp (fun x => x * 2)
      ((atom intApp st0 (JSVal.base 3)).2.vals
        ((atom intApp st0 (JSVal.base 3)).1).signal) =
      Except.ok (JSVal.base 6) ∧
      (((atom intApp st0 (JSVal.base 3)).1).get
        ((((atom intApp st0 (JSVal.base 3)).1).set (.func (fun x => x * 2))
          (atom intApp st0 (JSVal.base 3)).2).2)).1 = JSVal.base 6) :=
  ⟨⟨by decide,
    (signal_value_invariant intApp st0 (JSVal.base 3)).2.1 _ _ 1 (by decide)⟩,
   ⟨rfl, (signal_value_invariant intApp st0 (JSVal.base 3)).2.2.2 _ _ _ rfl⟩⟩

/-- C10: cells created by distinct calls to atom are independent: two
successive atom calls allocate distinct signals, and a set on either
cell, with a value or an updater, leaves what get() returns on the other
cell unchanged. -/
theorem atoms_independent {B F E : Type}
    (app : F → JSVal B F → Except E (JSVal B F)) (st : Store B F)
    (u v value : JSVal B F) (s : Store B F) :
    ((atom app st u).1).signal ≠
      ((atom app ((atom app st u).2) v).1).signal ∧
    (((atom app ((atom app st u).2) v).1).get
      ((((atom app st u).1).set value s).2)).1 =
      (((atom app ((atom app st u).2) v).1).get s).1 ∧
    (((atom app st u).1).get
      ((((atom app ((atom app st u).2) v).1).set value s).2)).1 =
      (((atom app st u).1).get s).1 := by
  refine ⟨by simp [atom, Store.signal], ?_, ?_⟩
  · simpa [atom, Store.signal] using
      set_frame app st u value s (st.next + 1) (by simp)
  · simpa [atom, Store.signal] using
      set_frame app ((atom app st u).2) v value s st.next
        (by simp [atom, Store.signal])

end FreshAtom
